import Mathlib

/-!
Verification of the architecture parameter table of the `go-to-github`
repository (`src/runtime/arch_power64le.h`).

The source file is a C enum of per-architecture constants for the
little-endian 64-bit POWER target:

  thechar = '9', BigEndian = 0, CacheLineSize = 64, RuntimeGogoBytes = 64,
  PhysPageSize = 65536, PCQuantum = 4, Int64Align = 8

We embed the record shallowly.  The enum values are nonnegative integer
constants (the tag is a character), so the fields are `Nat` with the tag a
`Char`.  The build-time selection mechanism and the runtime read operations
that consume the record are not part of the supplied source; where a claim
depends on them they are modelled from the spec, as marked in doc comments.
-/

/-- The ArchitectureParameters record: one field per constant of the C enum,
with the source's names.  `thechar` is a character tag; every other enum
constant is a nonnegative integer. -/
structure ArchitectureParameters where
  thechar : Char
  BigEndian : Nat
  CacheLineSize : Nat
  RuntimeGogoBytes : Nat
  PhysPageSize : Nat
  PCQuantum : Nat
  Int64Align : Nat
deriving DecidableEq, Repr

/-- The one record of the repository, transcribed from
`src/runtime/arch_power64le.h` lines 5-13. -/
def arch_power64le : ArchitectureParameters :=
  { thechar := '9'
    BigEndian := 0
    CacheLineSize := 64
    RuntimeGogoBytes := 64
    PhysPageSize := 65536
    PCQuantum := 4
    Int64Align := 8 }

/-- The spec's boolean view of the `BigEndian` constant: in C a constant used
as a truth value is true exactly when it is nonzero. -/
def isBigEndian (r : ArchitectureParameters) : Bool :=
  r.BigEndian != 0

/-- Modelled from the spec: the build-time failure kind.  The selection
mechanism is not in the supplied source; the spec says only one failure kind
exists, `UnsupportedArchitecture`, raised when the selection tag matches no
known record. -/
inductive BuildError where
  | UnsupportedArchitecture : BuildError
deriving DecidableEq, Repr

/-- Modelled from the spec: the registry of known architecture records, keyed
by build-time selection tag.  The supplied source provides exactly one
record, the little-endian 64-bit POWER variant, whose file name carries the
tag `power64le`. -/
def archRegistry : List (String × ArchitectureParameters) :=
  [("power64le", arch_power64le)]

/-- The set of tags the registry supports. -/
def supportedTags : List String :=
  archRegistry.map Prod.fst

/-- The known records, without their tags. -/
def archRecords : List ArchitectureParameters :=
  archRegistry.map Prod.snd

/-- Modelled from the spec: build-time selection resolves a tag to the single
matching record of the registry, or fails with `UnsupportedArchitecture` when
no record matches; there is no default record. -/
def selectArch (tag : String) : Except BuildError ArchitectureParameters :=
  match archRegistry.find? (fun p => p.1 == tag) with
  | some p => Except.ok p.2
  | none => Except.error BuildError.UnsupportedArchitecture

/-- Modelled from the spec: the run-time operations of the embedded program.
Consumers (allocator, scheduler, unwinder, cache-aware layer) only ever read
fields of the resolved record; no writer exists.  One operation per field;
each returns the field's value as a natural number (the tag via its code
point). -/
inductive RuntimeOp where
  | readTheChar : RuntimeOp
  | readBigEndian : RuntimeOp
  | readCacheLineSize : RuntimeOp
  | readRuntimeGogoBytes : RuntimeOp
  | readPhysPageSize : RuntimeOp
  | readPCQuantum : RuntimeOp
  | readInt64Align : RuntimeOp
deriving DecidableEq, Repr

/-- Run one operation against the resolved record, returning the value read
and the record as the operation leaves it. -/
def runOp (op : RuntimeOp) (r : ArchitectureParameters) :
    Nat × ArchitectureParameters :=
  match op with
  | RuntimeOp.readTheChar => (r.thechar.toNat, r)
  | RuntimeOp.readBigEndian => (r.BigEndian, r)
  | RuntimeOp.readCacheLineSize => (r.CacheLineSize, r)
  | RuntimeOp.readRuntimeGogoBytes => (r.RuntimeGogoBytes, r)
  | RuntimeOp.readPhysPageSize => (r.PhysPageSize, r)
  | RuntimeOp.readPCQuantum => (r.PCQuantum, r)
  | RuntimeOp.readInt64Align => (r.Int64Align, r)

/-- Run a whole schedule of operations in order — an arbitrary interleaving
of the reads issued by any number of threads — collecting the values read and
the final record. -/
def runOps : List RuntimeOp → ArchitectureParameters →
    List Nat × ArchitectureParameters
  | [], r => ([], r)
  | op :: ops, r =>
    let step := runOp op r
    let rest := runOps ops step.2
    (step.1 :: rest.1, rest.2)

/-- C1: selecting the little-endian 64-bit POWER tag and reading back its
record yields exactly the declared values: `isBigEndian = false`
(`BigEndian = 0`), `CacheLineSize = 64`, `PhysPageSize = 65536`,
`PCQuantum = 4`, `Int64Align = 8`, and `RuntimeGogoBytes = 64`. -/
theorem selectArch_power64le_roundtrip :
    selectArch "power64le" = Except.ok arch_power64le ∧
    isBigEndian arch_power64le = false ∧
    arch_power64le.BigEndian = 0 ∧
    arch_power64le.CacheLineSize = 64 ∧
    arch_power64le.PhysPageSize = 65536 ∧
    arch_power64le.PCQuantum = 4 ∧
    arch_power64le.Int64Align = 8 ∧
    arch_power64le.RuntimeGogoBytes = 64 :=
  ⟨rfl, rfl, rfl, rfl, rfl, rfl, rfl, rfl⟩

/-- C2: every record of the table has `PhysPageSize` and `CacheLineSize`
powers of two greater than zero. -/
theorem arch_sizes_pow2 :
    ∀ r ∈ archRecords,
      (0 < r.PhysPageSize ∧ ∃ k, r.PhysPageSize = 2 ^ k) ∧
      (0 < r.CacheLineSize ∧ ∃ k, r.CacheLineSize = 2 ^ k) := by
  intro r hr
  simp only [archRecords, archRegistry, List.map, List.mem_singleton] at hr
  subst hr
  exact ⟨⟨by decide, ⟨16, rfl⟩⟩, ⟨by decide, ⟨6, rfl⟩⟩⟩

/-- Witness for C2 at the power64le record. -/
theorem arch_sizes_pow2_witness :
    arch_power64le ∈ archRecords ∧
    ((0 < arch_power64le.PhysPageSize ∧
        ∃ k, arch_power64le.PhysPageSize = 2 ^ k) ∧
      (0 < arch_power64le.CacheLineSize ∧
        ∃ k, arch_power64le.CacheLineSize = 2 ^ k)) :=
  ⟨by decide, arch_sizes_pow2 arch_power64le (by decide)⟩

/-- C3: in every record of the table, `Int64Align` divides `PhysPageSize`
evenly, i.e. `PhysPageSize % Int64Align = 0`. -/
theorem int64Align_dvd_physPageSize :
    ∀ r ∈ archRecords,
      r.Int64Align ∣ r.PhysPageSize ∧ r.PhysPageSize % r.Int64Align = 0 := by
  intro r hr
  simp only [archRecords, archRegistry, List.map, List.mem_singleton] at hr
  subst hr
  exact ⟨⟨8192, rfl⟩, rfl⟩

/-- Witness for C3 at the power64le record. -/
theorem int64Align_dvd_physPageSize_witness :
    arch_power64le ∈ archRecords ∧
    (arch_power64le.Int64Align ∣ arch_power64le.PhysPageSize ∧
      arch_power64le.PhysPageSize % arch_power64le.Int64Align = 0) :=
  ⟨by decide, int64Align_dvd_physPageSize arch_power64le (by decide)⟩

/-- C4: selection of an unsupported tag deterministically fails with
`UnsupportedArchitecture` and never yields a default record; selection of a
supported tag never fails and returns the registry record for that tag. -/
theorem selectArch_total_or_unsupported :
    ∀ tag : String,
      (tag ∈ supportedTags →
        ∃ r, (tag, r) ∈ archRegistry ∧ selectArch tag = Except.ok r) ∧
      (tag ∉ supportedTags →
        selectArch tag = Except.error BuildError.UnsupportedArchitecture) := by
  intro tag
  constructor
  · intro h
    simp only [supportedTags, archRegistry, List.map, List.mem_singleton] at h
    subst h
    exact ⟨arch_power64le, by decide, rfl⟩
  · intro h
    simp only [supportedTags, archRegistry, List.map, List.mem_singleton] at h
    have hb : (("power64le", arch_power64le).1 == tag) = false := by
      simpa using fun he => h he.symm
    simp [selectArch, archRegistry, List.find?, hb]

/-- Witness for C4: the supported tag `power64le` succeeds; the unknown tag
`sparc` fails with `UnsupportedArchitecture`. -/
theorem selectArch_total_or_unsupported_witness :
    (∃ r, ("power64le", r) ∈ archRegistry ∧
        selectArch "power64le" = Except.ok r) ∧
    selectArch "sparc" = Except.error BuildError.UnsupportedArchitecture :=
  ⟨(selectArch_total_or_unsupported "power64le").1 (by decide),
    (selectArch_total_or_unsupported "sparc").2 (by decide)⟩

/-- C5: the architecture tag field of the record is a single character (the
field has character type in the embedding), and for the power64le record that
character is '9'. -/
theorem thechar_power64le : arch_power64le.thechar = '9' :=
  rfl

/-- C6: every run-time operation of the embedded program leaves all seven
field values of the resolved record unchanged. -/
theorem runOp_leaves_fields_unchanged :
    ∀ (op : RuntimeOp) (r : ArchitectureParameters),
      ((runOp op r).2).thechar = r.thechar ∧
      ((runOp op r).2).BigEndian = r.BigEndian ∧
      ((runOp op r).2).CacheLineSize = r.CacheLineSize ∧
      ((runOp op r).2).RuntimeGogoBytes = r.RuntimeGogoBytes ∧
      ((runOp op r).2).PhysPageSize = r.PhysPageSize ∧
      ((runOp op r).2).PCQuantum = r.PCQuantum ∧
      ((runOp op r).2).Int64Align = r.Int64Align := by
  intro op r
  cases op <;> exact ⟨rfl, rfl, rfl, rfl, rfl, rfl, rfl⟩

/-- C7: the registry holds exactly one record per supported tag, the tags are
pairwise distinct, and the `thechar` tags of the records are pairwise
distinct. -/
theorem registry_unique_and_total :
    (archRegistry.map Prod.fst).Nodup ∧
    (archRecords.map (fun r => r.thechar)).Nodup ∧
    ∀ tag ∈ supportedTags,
      (archRegistry.filter (fun p => p.1 == tag)).length = 1 := by
  refine ⟨by decide, by decide, ?_⟩
  intro tag h
  simp only [supportedTags, archRegistry, List.map, List.mem_singleton] at h
  subst h
  decide

/-- Witness for C7 at the tag `power64le`. -/
theorem registry_unique_and_total_witness :
    "power64le" ∈ supportedTags ∧
    (archRegistry.filter (fun p => p.1 == "power64le")).length = 1 :=
  ⟨by decide, registry_unique_and_total.2.2 "power64le" (by decide)⟩

/-- C8: any schedule of read operations — an arbitrary interleaving of the
reads issued by any number of threads — leaves the resolved record unchanged,
and every read returns the value determined by the record alone, independent
of its position in the schedule: with no writer there is nothing to race
with. -/
theorem runOps_schedule_independent :
    ∀ (ops : List RuntimeOp) (r : ArchitectureParameters),
      (runOps ops r).2 = r ∧
      (runOps ops r).1 = ops.map (fun op => (runOp op r).1) := by
  intro ops r
  induction ops with
  | nil => exact ⟨rfl, rfl⟩
  | cons op ops ih =>
    have h2 : (runOp op r).2 = r := by cases op <;> rfl
    simp [runOps, h2, ih.1, ih.2]

/-- C9: in the power64le record, `Int64Align` divides `CacheLineSize`, so a
structure padded to whole cache lines keeps 8-byte scalar alignment. -/
theorem int64Align_dvd_cacheLineSize :
    arch_power64le.Int64Align ∣ arch_power64le.CacheLineSize ∧
    arch_power64le.CacheLineSize % arch_power64le.Int64Align = 0 :=
  ⟨⟨8, rfl⟩, rfl⟩

/-- C10: in the power64le record, `CacheLineSize` divides `PhysPageSize`, so
every page boundary is also a cache-line boundary. -/
theorem cacheLineSize_dvd_physPageSize :
    arch_power64le.CacheLineSize ∣ arch_power64le.PhysPageSize ∧
    arch_power64le.PhysPageSize % arch_power64le.CacheLineSize = 0 :=
  ⟨⟨1024, rfl⟩, rfl⟩
